import Mathlib

/- A shallow embedding of `pangeo_forge_prefect/flow_manager.py`: the flow
registration engine of pangeo-forge-prefect.  Python dictionaries are modelled
as association lists, Python exceptions as an explicit `Except` error channel,
and the mutation of the recipe object inside `recipe_to_flow` as explicit
state passing (the function returns the final state of the recipe object
alongside its result).  External collaborators (the S3/Azure filesystem
constructors, prefect's executor, run-config and storage classes, the
dask-kubernetes pod helpers, the Prefect client) are modelled as inert record
constructors: the embedding records exactly the arguments the source passes
to them. -/

namespace PangeoForge

/-- The exception classes declared at the top of `flow_manager.py`, together
with `KeyError` (raised by a Python dict lookup on a missing key) and
`attributeError` (raised by attribute access on `None`). -/
inductive FlowError
| UnsupportedTarget
| UnsupportedClusterType
| UnsupportedFlowStorage
| UnsupportedPangeoVersion
| UnsupportedPangeoForgeRecipeVersion
| UnsupportedPrefectVersion
| UnsupportedRecipeType
| KeyError (key : String)
| attributeError
deriving DecidableEq

/-- Modelled from the spec: the object-store protocol tag (constant
`S3_PROTOCOL` imported from `meta_types/bakery.py`, a module that is not part
of the provided source).  Only its distinctness from the other tags matters. -/
def S3_PROTOCOL : String := "s3"

/-- Modelled from the spec: the connection-string protocol tag (constant
`ABFS_PROTOCOL` imported from `meta_types/bakery.py`, not in the provided
source).  Only its distinctness from the other tags matters. -/
def ABFS_PROTOCOL : String := "abfs"

/-- Modelled from the spec: the ephemeral-serverless-pool cluster type tag
(constant `FARGATE_CLUSTER` imported from `meta_types/bakery.py`, not in the
provided source). -/
def FARGATE_CLUSTER : String := "aws.fargate"

/-- Modelled from the spec: the container-orchestrator-pool cluster type tag
(constant `AKS_CLUSTER` imported from `meta_types/bakery.py`, not in the
provided source). -/
def AKS_CLUSTER : String := "azure.aks"

/-- Credential-option references of a storage descriptor: names of secrets,
looked up in the `Secrets` table. -/
structure StorageOptions where
  key : String
  secret : String
deriving DecidableEq

/-- The `private` part of a bakery target descriptor, as accessed by
`configure_targets` (`target.private.protocol`,
`target.private.storage_options`).  The field is named `priv` because
`private` is a Lean keyword. -/
structure TargetPrivate where
  protocol : String
  storage_options : Option StorageOptions
deriving DecidableEq

/-- A bakery target descriptor. -/
structure BakeryTarget where
  priv : TargetPrivate
deriving DecidableEq

/-- Per-recipe resource hint (`recipe_bakery.resources`). -/
structure Resources where
  cpu : Nat
  memory : Nat
deriving DecidableEq

/-- The `bakery` section of a recipe's meta.yaml (`meta.bakery`). -/
structure RecipeBakery where
  id : String
  target : String
  resources : Option Resources
deriving DecidableEq

/-- Provider-specific cluster options, as accessed by the Fargate branch of
`configure_dask_executor` and `configure_run_config`. -/
structure ClusterOptions where
  vpc : String
  cluster_arn : String
  task_role_arn : String
  execution_role_arn : String
  security_groups : List String
deriving DecidableEq

/-- The cluster section of a bakery descriptor, with exactly the fields
`flow_manager.py` reads. -/
structure Cluster where
  type : String
  worker_image : String
  cluster_options : ClusterOptions
  flow_storage : String
  flow_storage_protocol : String
  flow_storage_options : StorageOptions
  max_workers : Nat
  pangeo_notebook_version : String
  pangeo_forge_version : String
  prefect_version : String
deriving DecidableEq

/-- A bakery descriptor: a cluster plus a mapping from target name to target
descriptor (the Python dict `bakery.targets` modelled as an association
list). -/
structure Bakery where
  targets : List (String × BakeryTarget)
  cluster : Cluster
deriving DecidableEq

/-- The caller-supplied secrets dictionary, modelled as an association list;
`secrets[name]` becomes a lookup that raises `KeyError` when absent. -/
abbrev Secrets := List (String × String)

/-- A filesystem handle: the embedding records the constructor the source
calls and the arguments it passes (`S3FileSystem(anon=False,
default_cache_type="none", default_fill_cache=False, key=key, secret=secret)`
or `AzureBlobFileSystem(connection_string=secret)`). -/
inductive FileSystem
| s3 (anon : Bool) (default_cache_type : String) (default_fill_cache : Bool)
    (key : String) (secret : String)
| abfs (connection_string : String)
deriving DecidableEq

/-- `FSSpecTarget(fs, path)` from pangeo_forge_recipes.storage. -/
structure FSSpecTarget where
  fs : FileSystem
  root_path : String
deriving DecidableEq

/-- `CacheFSSpecTarget(fs, path)` from pangeo_forge_recipes.storage. -/
structure CacheFSSpecTarget where
  fs : FileSystem
  root_path : String
deriving DecidableEq

/-- `MetadataTarget(fs, path)` from pangeo_forge_recipes.storage. -/
structure MetadataTarget where
  fs : FileSystem
  root_path : String
deriving DecidableEq

/-- The `Targets` dataclass of `flow_manager.py`. -/
structure Targets where
  target : FSSpecTarget
  cache : CacheFSSpecTarget
  metadata : MetadataTarget
deriving DecidableEq

/-- `configure_targets` from `flow_manager.py`.  The ambient environment
variable `GITHUB_REPOSITORY` is passed explicitly as `repository`.  The
Python function falls off the end (returning `None`) when the protocol is
recognized but `storage_options` is falsy; this is the `Except.ok none`
outcome, distinct from the `UnsupportedTarget` exception of the final
`else`. -/
def configure_targets (bakery : Bakery) (recipe_bakery : RecipeBakery)
    (recipe_name : String) (secrets : Secrets) (extension : String)
    (repository : String) : Except FlowError (Option Targets) :=
  match bakery.targets.lookup recipe_bakery.target with
  | none => .error (.KeyError recipe_bakery.target)
  | some target =>
    if target.priv.protocol = S3_PROTOCOL then
      match target.priv.storage_options with
      | none => .ok none
      | some so =>
        match secrets.lookup so.key with
        | none => .error (.KeyError so.key)
        | some key =>
          match secrets.lookup so.secret with
          | none => .error (.KeyError so.secret)
          | some secret =>
            let fs := FileSystem.s3 false "none" false key secret
            let target_path :=
              "s3://" ++ recipe_bakery.target ++ "/" ++ repository ++ "/" ++
                recipe_name ++ "." ++ extension
            let cache_path :=
              "s3://" ++ recipe_bakery.target ++ "/" ++ repository ++ "/" ++
                recipe_name ++ "/cache"
            let metadata_path :=
              "s3://" ++ recipe_bakery.target ++ "/" ++ repository ++ "/" ++
                recipe_name ++ "/cache/metadata"
            .ok (some { target := ⟨fs, target_path⟩, cache := ⟨fs, cache_path⟩,
                        metadata := ⟨fs, metadata_path⟩ })
    else if target.priv.protocol = ABFS_PROTOCOL then
      match target.priv.storage_options with
      | none => .ok none
      | some so =>
        match secrets.lookup so.secret with
        | none => .error (.KeyError so.secret)
        | some secret =>
          let fs := FileSystem.abfs secret
          let target_path :=
            "abfs://" ++ recipe_bakery.target ++ "/" ++ repository ++ "/" ++
              recipe_name ++ "." ++ extension
          let cache_path :=
            "abfs://" ++ recipe_bakery.target ++ "/" ++ repository ++ "/" ++
              recipe_name ++ "/cache"
          let metadata_path :=
            "abfs://" ++ recipe_bakery.target ++ "/" ++ repository ++ "/" ++
              recipe_name ++ "/cache/metadata"
          .ok (some { target := ⟨fs, target_path⟩, cache := ⟨fs, cache_path⟩,
                      metadata := ⟨fs, metadata_path⟩ })
    else
      .error .UnsupportedTarget

/-- The runtime's declared toolchain versions (`meta_types/versions.py`). -/
structure Versions where
  pangeo_notebook_version : String
  pangeo_forge_version : String
  prefect_version : String
deriving DecidableEq

/-- One entry of `meta.recipes`: either a direct object reference or a
reference to a dict of recipes (`recipe_meta.dict_object` is checked for
truthiness). -/
structure RecipeMeta where
  id : String
  object : String
  dict_object : Option String
deriving DecidableEq

/-- The decoded meta.yaml (`meta_types/meta.py`), with exactly the fields
`flow_manager.py` reads. -/
structure Meta where
  bakery : RecipeBakery
  pangeo_notebook_version : String
  pangeo_forge_version : String
  recipes : List RecipeMeta
deriving DecidableEq

/-- `check_versions` from `flow_manager.py`: the five comparisons in source
order, each raising its exception kind, `True` on success. -/
def check_versions (meta : Meta) (cluster : Cluster) (versions : Versions) :
    Except FlowError Bool :=
  if meta.pangeo_notebook_version ≠ versions.pangeo_notebook_version then
    .error .UnsupportedPangeoVersion
  else if meta.pangeo_notebook_version ≠ cluster.pangeo_notebook_version then
    .error .UnsupportedPangeoVersion
  else if meta.pangeo_forge_version ≠ versions.pangeo_forge_version then
    .error .UnsupportedPangeoForgeRecipeVersion
  else if meta.pangeo_forge_version ≠ cluster.pangeo_forge_version then
    .error .UnsupportedPangeoForgeRecipeVersion
  else if versions.prefect_version ≠ cluster.prefect_version then
    .error .UnsupportedPrefectVersion
  else
    .ok true

/-- A kubernetes pod template, as produced by `make_pod_spec` from
dask_kubernetes and postprocessed in `configure_dask_executor`. -/
structure PodSpec where
  image : String
  labels : List (String × String)
  memory_request : String
  cpu_request : String
  env : List (String × String)
  container_args : List String
  pod_type : Option String
deriving DecidableEq

/-- `make_pod_spec(image=..., labels=..., memory_request=..., cpu_request=...,
env=...)`; the scheduler call omits `env`, which defaults to empty. -/
def make_pod_spec (image : String) (labels : List (String × String))
    (memory_request : String) (cpu_request : String)
    (env : List (String × String) := []) : PodSpec :=
  { image := image, labels := labels, memory_request := memory_request,
    cpu_request := cpu_request, env := env, container_args := [],
    pod_type := none }

/-- `spec.spec.containers[0].args = args` on a pod template. -/
def PodSpec.withContainerArgs (spec : PodSpec) (args : List String) : PodSpec :=
  { spec with container_args := args }

/-- `clean_pod_template(spec, pod_type=...)` from dask_kubernetes. -/
def clean_pod_template (spec : PodSpec) (pod_type : String) : PodSpec :=
  { spec with pod_type := some pod_type }

/-- The `cluster_kwargs` passed to `DaskExecutor`: the Fargate branch passes
scalar sizing arguments, the AKS branch passes two pod templates. -/
inductive ClusterKwargs
| fargate (image : String) (vpc : String) (cluster_arn : String)
    (task_role_arn : String) (execution_role_arn : String)
    (security_groups : List String) (scheduler_cpu : Nat) (scheduler_mem : Nat)
    (worker_cpu : Nat) (worker_mem : Nat) (scheduler_timeout : String)
    (environment : List (String × String)) (tags : List (String × String))
| kube (pod_template : PodSpec) (scheduler_pod_template : PodSpec)
deriving DecidableEq

/-- prefect's `DaskExecutor(cluster_class=..., cluster_kwargs=...,
adapt_kwargs={"minimum": ..., "maximum": ...})`. -/
structure DaskExecutor where
  cluster_class : String
  cluster_kwargs : ClusterKwargs
  adapt_minimum : Nat
  adapt_maximum : Nat
deriving DecidableEq

/-- `configure_dask_executor` from `flow_manager.py`. -/
def configure_dask_executor (cluster : Cluster) (recipe_bakery : RecipeBakery)
    (recipe_name : String) (secrets : Secrets) :
    Except FlowError DaskExecutor :=
  if cluster.type = FARGATE_CLUSTER then
    let worker_cpu :=
      match recipe_bakery.resources with
      | some resources => resources.cpu
      | none => 1024
    let worker_mem :=
      match recipe_bakery.resources with
      | some resources => resources.memory
      | none => 4096
    .ok { cluster_class := "dask_cloudprovider.aws.FargateCluster",
          cluster_kwargs := .fargate cluster.worker_image
            cluster.cluster_options.vpc cluster.cluster_options.cluster_arn
            cluster.cluster_options.task_role_arn
            cluster.cluster_options.execution_role_arn
            cluster.cluster_options.security_groups
            2048 16384 worker_cpu worker_mem "15 minutes"
            [("PREFECT__LOGGING__EXTRA_LOGGERS", "[\x27pangeo_forge_recipes\x27]"),
             ("MALLOC_TRIM_THRESHOLD_", "0")]
            [("Project", "pangeo-forge"), ("Recipe", recipe_name)],
          adapt_minimum := 5, adapt_maximum := cluster.max_workers }
  else if cluster.type = AKS_CLUSTER then
    let worker_cpu :=
      match recipe_bakery.resources with
      | some resources => resources.cpu
      | none => 250
    let worker_mem :=
      match recipe_bakery.resources with
      | some resources => resources.memory
      | none => 512
    let scheduler_spec :=
      make_pod_spec cluster.worker_image
        [("Recipe", recipe_name), ("Project", "pangeo-forge")]
        "10000Mi" "2048m"
    let scheduler_spec := scheduler_spec.withContainerArgs ["dask-scheduler"]
    let scheduler_spec := clean_pod_template scheduler_spec "scheduler"
    match secrets.lookup cluster.flow_storage_options.secret with
    | none => .error (.KeyError cluster.flow_storage_options.secret)
    | some secret =>
      .ok { cluster_class := "dask_kubernetes.KubeCluster",
            cluster_kwargs := .kube
              (make_pod_spec cluster.worker_image
                [("Recipe", recipe_name), ("Project", "pangeo-forge")]
                (toString worker_mem ++ "Mi") (toString worker_cpu ++ "m")
                [("AZURE_STORAGE_CONNECTION_STRING", secret)])
              scheduler_spec,
            adapt_minimum := 5, adapt_maximum := cluster.max_workers }
  else
    .error .UnsupportedClusterType

/-- The ECS task definition dict built by the Fargate branch of
`configure_run_config`; `containerDefinitions` keeps the container names. -/
structure TaskDefinition where
  networkMode : String
  cpu : Nat
  memory : Nat
  containerDefinitions : List String
  executionRoleArn : String
deriving DecidableEq

/-- The kubernetes job template parsed from the inline YAML in
`configure_run_config`, keeping the fields the YAML sets. -/
structure JobTemplate where
  apiVersion : String
  kind : String
  metadata_annotations : List (String × String)
  containers : List String
deriving DecidableEq

/-- prefect's run-config classes: `ECSRun(...)` and `KubernetesRun(...)`,
recording the arguments the source passes. -/
inductive RunConfig
| ecs (image : String) (labels : List String) (task_definition : TaskDefinition)
    (run_task_tags : List (String × String))
| kubernetes (job_template : JobTemplate) (image : String)
    (labels : List String) (memory_request : String) (cpu_request : String)
    (env : List (String × String))
deriving DecidableEq

/-- `configure_run_config` from `flow_manager.py`. -/
def configure_run_config (cluster : Cluster) (recipe_bakery : RecipeBakery)
    (recipe_name : String) (secrets : Secrets) : Except FlowError RunConfig :=
  if cluster.type = FARGATE_CLUSTER then
    let definition : TaskDefinition :=
      { networkMode := "awsvpc", cpu := 2048, memory := 16384,
        containerDefinitions := ["flow"],
        executionRoleArn := cluster.cluster_options.execution_role_arn }
    .ok (.ecs cluster.worker_image [recipe_bakery.id] definition
      [("Project", "pangeo-forge"), ("Recipe", recipe_name)])
  else if cluster.type = AKS_CLUSTER then
    let job_template : JobTemplate :=
      { apiVersion := "batch/v1", kind := "Job",
        metadata_annotations :=
          [("cluster-autoscaler.kubernetes.io/safe-to-evict", "false")],
        containers := ["flow"] }
    match secrets.lookup cluster.flow_storage_options.secret with
    | none => .error (.KeyError cluster.flow_storage_options.secret)
    | some secret =>
      .ok (.kubernetes job_template cluster.worker_image [recipe_bakery.id]
        "10000Mi" "2048m" [("AZURE_STORAGE_CONNECTION_STRING", secret)])
  else
    .error .UnsupportedClusterType

/-- prefect's flow-storage classes: `storage.S3(bucket=...,
client_options=...)` and `storage.Azure(container=...,
connection_string=...)`. -/
inductive FlowStorage
| s3 (bucket : String) (aws_access_key_id : String)
    (aws_secret_access_key : String)
| azure (container : String) (connection_string : String)
deriving DecidableEq

/-- `configure_flow_storage` from `flow_manager.py`. -/
def configure_flow_storage (cluster : Cluster) (secrets : Secrets) :
    Except FlowError FlowStorage :=
  if cluster.flow_storage_protocol = S3_PROTOCOL then
    match secrets.lookup cluster.flow_storage_options.key with
    | none => .error (.KeyError cluster.flow_storage_options.key)
    | some key =>
      match secrets.lookup cluster.flow_storage_options.secret with
      | none => .error (.KeyError cluster.flow_storage_options.secret)
      | some secret => .ok (.s3 cluster.flow_storage key secret)
  else if cluster.flow_storage_protocol = ABFS_PROTOCOL then
    match secrets.lookup cluster.flow_storage_options.secret with
    | none => .error (.KeyError cluster.flow_storage_options.secret)
    | some secret => .ok (.azure cluster.flow_storage secret)
  else
    .error .UnsupportedFlowStorage

/-- Python's `logging.DEBUG` level. -/
def LOG_DEBUG : Nat := 10

/-- The state of Python's logging module: whether `basicConfig` ran, and the
per-logger levels (first match wins). -/
structure LogState where
  basic_config : Bool
  levels : List (String × Nat)
deriving DecidableEq

/-- `logging.basicConfig()`. -/
def basicConfig (s : LogState) : LogState := { s with basic_config := true }

/-- `logging.getLogger(name).setLevel(level)`. -/
def setLoggerLevel (s : LogState) (name : String) (level : Nat) : LogState :=
  { s with levels := (name, level) :: s.levels }

/-- The effective level of a logger. -/
def loggerLevel (s : LogState) (name : String) : Option Nat :=
  s.levels.lookup name

/-- The logging-state change performed inside `set_log_level`'s wrapper
before the wrapped task function runs. -/
def logPrelude (s : LogState) : LogState :=
  setLoggerLevel (basicConfig s) "pangeo_forge_recipes" LOG_DEBUG

/-- `set_log_level` from `flow_manager.py`: a decorator whose wrapper calls
`logging.basicConfig()`, sets the `pangeo_forge_recipes` logger to DEBUG,
then calls the wrapped function and returns its result unchanged (exceptions,
modelled by `Except.error`, propagate untouched). -/
def set_log_level {α β ε : Type} (func : α → LogState → Except ε (β × LogState))
    (args : α) (s : LogState) : Except ε (β × LogState) :=
  func args (logPrelude s)

/-- The run callable of a task: argument, logging state in, result or
exception plus logging state out (exceptions modelled as `Except.error` over
an opaque `String` payload). -/
abbrev TRun := Unit → LogState → Except String (Unit × LogState)

/-- A task as it comes out of `recipe.to_prefect()`, before `recipe_to_flow`
decorates it: the identity of its work plus its run callable. -/
structure PreTask where
  task_name : String
  run : TRun

/-- A prefect task inside a flow: `recipe_to_flow` mutates `max_retries`,
`retry_delay` (a `timedelta`, modelled in seconds) and `run`. -/
structure Task where
  task_name : String
  max_retries : Nat
  retry_delay : Option Nat
  run : TRun

/-- The recipe kind, checked by `isinstance` in `get_target_extension`:
`XarrayZarrRecipe` is the only supported kind. -/
inductive RecipeKind
| xarray_zarr
| other
deriving DecidableEq

/-- A `BaseRecipe` object as `flow_manager.py` uses it: mutable target /
input-cache / metadata-cache slots, a kind tag, the tasks its
`to_prefect()` conversion produces, and the tasks that conversion would
produce after `copy_pruned()`. -/
structure Recipe where
  kind : RecipeKind
  target : Option FSSpecTarget
  input_cache : Option CacheFSSpecTarget
  metadata_cache : Option MetadataTarget
  base_tasks : List PreTask
  pruned_tasks : List PreTask

/-- `recipe.copy_pruned()` from pangeo_forge_recipes: a scope-reduced copy of
the recipe; resolved slots are preserved, only the task payload shrinks. -/
def Recipe.copy_pruned (r : Recipe) : Recipe :=
  { r with base_tasks := r.pruned_tasks }

/-- A prefect `Flow` with the fields `recipe_to_flow` assigns. -/
structure Flow where
  tasks : List Task
  flow_name : String
  flow_storage : Option FlowStorage
  run_config : Option RunConfig
  executor : Option DaskExecutor

/-- `recipe.to_prefect()` from pangeo_forge_recipes: a fresh flow whose tasks
carry prefect's defaults (`max_retries=0`, `retry_delay=None`). -/
def Recipe.to_prefect (r : Recipe) : Flow :=
  { tasks := r.base_tasks.map
      (fun p => { task_name := p.task_name, max_retries := 0,
                  retry_delay := none, run := p.run }),
    flow_name := "", flow_storage := none, run_config := none,
    executor := none }

/-- `get_target_extension` from `flow_manager.py`. -/
def get_target_extension (recipe : Recipe) : Except FlowError String :=
  match recipe.kind with
  | .xarray_zarr => .ok "zarr"
  | .other => .error .UnsupportedRecipeType

/-- `timedelta(minutes=3)` in seconds. -/
def RETRY_DELTA : Nat := 180

/-- `recipe_to_flow` from `flow_manager.py`.  The Python function mutates the
caller's recipe object (`recipe.target = ...` and friends) before calling the
executor / flow-storage / run-config resolvers; the embedding makes that
explicit by returning the final state of the caller's recipe object alongside
the `Except` result.  (`recipe = recipe.copy_pruned()` only rebinds the local
name, so the caller's object keeps the slot assignments in every outcome.) -/
def recipe_to_flow (bakery : Bakery) (meta : Meta) (recipe_id : String)
    (recipe : Recipe) (targets : Targets) (secrets : Secrets)
    (prune : Bool := false) : Except FlowError Flow × Recipe :=
  let recipe :=
    { recipe with
      target := some targets.target,
      input_cache := some targets.cache,
      metadata_cache := some targets.metadata }
  match configure_dask_executor bakery.cluster meta.bakery recipe_id secrets with
  | .error e => (.error e, recipe)
  | .ok dask_executor =>
    let pruned := if prune then recipe.copy_pruned else recipe
    let flow := pruned.to_prefect
    match configure_flow_storage bakery.cluster secrets with
    | .error e => (.error e, recipe)
    | .ok flow_storage =>
      match configure_run_config bakery.cluster meta.bakery recipe_id secrets with
      | .error e => (.error e, recipe)
      | .ok run_config =>
        let flow :=
          { flow with
            flow_storage := some flow_storage,
            run_config := some run_config,
            executor := some dask_executor,
            tasks := flow.tasks.map
              (fun t =>
                { t with
                  max_retries := 3,
                  retry_delay := some RETRY_DELTA,
                  run := set_log_level t.run }),
            flow_name := recipe_id }
        (.ok flow, recipe)

/-- Externally visible steps of `register_flow`, in order: a successful
`configure_targets` resolution, a `flow.register(...)` call, a
`create_flow_run(...)` call, and a `create_automation(...)` call. -/
inductive Event
| resolved_targets (recipe_name : String)
| registered (flow_name : String) (project : String)
| flow_run (flow_name : String) (comment : String)
| automation_hook (flow_name : String)
deriving DecidableEq

/-- Whether an event is a registration with the workflow engine. -/
def Event.isRegistered : Event → Bool
  | .registered _ _ => true
  | _ => false

/-- The body of `register_flow`'s per-recipe loop for one concrete `(key,
value)` recipe object: derive the extension, resolve targets (a `None`
result makes the subsequent `targets.target` attribute access fail), build
the flow, register it, and — when a comment id is present — create a run and
the automation hook.  Returns the emitted events and the exception, if any,
that aborted the step. -/
def processOne (bakery : Bakery) (meta : Meta) (secrets : Secrets)
    (prune : Bool) (repository : String) (project_name : String)
    (comment_id : Option String) (key : String) (value : Recipe) :
    List Event × Option FlowError :=
  match get_target_extension value with
  | .error e => ([], some e)
  | .ok extension =>
    match configure_targets bakery meta.bakery key secrets extension repository with
    | .error e => ([], some e)
    | .ok none => ([], some .attributeError)
    | .ok (some targets) =>
      match (recipe_to_flow bakery meta key value targets secrets prune).fst with
      | .error e => ([.resolved_targets key], some e)
      | .ok flow =>
        match comment_id with
        | none =>
          ([.resolved_targets key, .registered flow.flow_name project_name],
           none)
        | some cid =>
          match secrets.lookup "ACTIONS_BOT_TOKEN" with
          | none =>
            ([.resolved_targets key, .registered flow.flow_name project_name,
              .flow_run flow.flow_name cid],
             some (.KeyError "ACTIONS_BOT_TOKEN"))
          | some _ =>
            ([.resolved_targets key, .registered flow.flow_name project_name,
              .flow_run flow.flow_name cid, .automation_hook flow.flow_name],
             none)

/-- Sequential processing of a list of `(key, recipe)` pairs, aborting at the
first exception; events emitted before the abort are kept. -/
def runEntries (bakery : Bakery) (meta : Meta) (secrets : Secrets)
    (prune : Bool) (repository : String) (project_name : String)
    (comment_id : Option String) :
    List (String × Recipe) → List Event × Option FlowError
  | [] => ([], none)
  | entry :: rest =>
    let res := processOne bakery meta secrets prune repository project_name
      comment_id entry.fst entry.snd
    match res.snd with
    | some e => (res.fst, some e)
    | none =>
      let res2 := runEntries bakery meta secrets prune repository project_name
        comment_id rest
      (res.fst ++ res2.fst, res2.snd)

/-- The outer loop of `register_flow` over `meta.recipes`: a `dict_object`
entry expands, via the dynamic loader, to its contained `(key, value)` pairs;
a plain entry loads one object under the entry's id. -/
def runRecipeMetas (bakery : Bakery) (meta : Meta) (secrets : Secrets)
    (prune : Bool) (repository : String) (project_name : String)
    (comment_id : Option String) (obj_loader : String → Recipe)
    (dict_loader : String → List (String × Recipe)) :
    List RecipeMeta → List Event × Option FlowError
  | [] => ([], none)
  | rm :: rest =>
    let entries :=
      match rm.dict_object with
      | some dobj => dict_loader dobj
      | none => [(rm.id, obj_loader rm.object)]
    let res := runEntries bakery meta secrets prune repository project_name
      comment_id entries
    match res.snd with
    | some e => (res.fst, some e)
    | none =>
      let res2 := runRecipeMetas bakery meta secrets prune repository
        project_name comment_id obj_loader dict_loader rest
      (res.fst ++ res2.fst, res2.snd)

/-- `register_flow` from `flow_manager.py`, over already-decoded structures:
YAML parsing and dacite decoding are out of scope, so the decoded `meta` and
bakery table are inputs; `get_module_attribute`'s dynamic loading is the
`obj_loader` / `dict_loader` pair; the ambient environment
(`GITHUB_REPOSITORY`, `PREFECT_PROJECT_NAME`, `COMMENT_ID`) is passed
explicitly.  Returns the trace of externally visible events and the
exception, if any, that aborted the batch. -/
def register_flow (meta : Meta) (bakeries : List (String × Bakery))
    (secrets : Secrets) (versions : Versions) (prune : Bool)
    (repository : String) (project_name : String) (comment_id : Option String)
    (obj_loader : String → Recipe)
    (dict_loader : String → List (String × Recipe)) :
    List Event × Option FlowError :=
  match bakeries.lookup meta.bakery.id with
  | none => ([], some (.KeyError meta.bakery.id))
  | some bakery =>
    match check_versions meta bakery.cluster versions with
    | .error e => ([], some e)
    | .ok _ =>
      runRecipeMetas bakery meta secrets prune repository project_name
        comment_id obj_loader dict_loader meta.recipes

/-- Worker cpu units of a Fargate executor's cluster kwargs. -/
def ClusterKwargs.workerCpuUnits : ClusterKwargs → Option Nat
  | .fargate _ _ _ _ _ _ _ _ worker_cpu _ _ _ _ => some worker_cpu
  | _ => none

/-- Worker memory units of a Fargate executor's cluster kwargs. -/
def ClusterKwargs.workerMemUnits : ClusterKwargs → Option Nat
  | .fargate _ _ _ _ _ _ _ _ _ worker_mem _ _ _ => some worker_mem
  | _ => none

/-- Scheduler cpu units of a Fargate executor's cluster kwargs. -/
def ClusterKwargs.schedulerCpuUnits : ClusterKwargs → Option Nat
  | .fargate _ _ _ _ _ _ scheduler_cpu _ _ _ _ _ _ => some scheduler_cpu
  | _ => none

/-- Scheduler memory units of a Fargate executor's cluster kwargs. -/
def ClusterKwargs.schedulerMemUnits : ClusterKwargs → Option Nat
  | .fargate _ _ _ _ _ _ _ scheduler_mem _ _ _ _ _ => some scheduler_mem
  | _ => none

/-- The worker pod template of a kubernetes executor's cluster kwargs. -/
def ClusterKwargs.workerPod : ClusterKwargs → Option PodSpec
  | .kube pod_template _ => some pod_template
  | _ => none

/-- The scheduler pod template of a kubernetes executor's cluster kwargs. -/
def ClusterKwargs.schedulerPod : ClusterKwargs → Option PodSpec
  | .kube _ scheduler_pod_template => some scheduler_pod_template
  | _ => none

/-- The effective worker cpu for the Fargate branch: the per-recipe hint when
present, else 1024. -/
def fargateWorkerCpu (recipe_bakery : RecipeBakery) : Nat :=
  match recipe_bakery.resources with
  | some resources => resources.cpu
  | none => 1024

/-- The effective worker memory for the Fargate branch: the per-recipe hint
when present, else 4096. -/
def fargateWorkerMem (recipe_bakery : RecipeBakery) : Nat :=
  match recipe_bakery.resources with
  | some resources => resources.memory
  | none => 4096

/-- The effective worker cpu for the AKS branch: the per-recipe hint when
present, else 250. -/
def aksWorkerCpu (recipe_bakery : RecipeBakery) : Nat :=
  match recipe_bakery.resources with
  | some resources => resources.cpu
  | none => 250

/-- The effective worker memory for the AKS branch: the per-recipe hint when
present, else 512. -/
def aksWorkerMem (recipe_bakery : RecipeBakery) : Nat :=
  match recipe_bakery.resources with
  | some resources => resources.memory
  | none => 512

/-- First failing check of an ordered list of (passed, exception-kind) pairs:
the exception of the first failed check, or a pass token when all pass. -/
def firstFailure : List (Bool × FlowError) → Except FlowError Bool
  | [] => .ok true
  | check :: rest => if check.fst then firstFailure rest else .error check.snd

/-- Modelled from the spec: the version gate as §4.1 words it — "Checks, in
order: manifest.notebook == runtime.notebook; manifest.notebook ==
cluster.notebook; manifest.framework == runtime.framework;
manifest.framework == cluster.framework; cluster.engine == runtime.engine.
First failing check raises a specific mismatch kind ... Success returns a
pass token."  Stated over the same data as `check_versions` so the two can be
compared. -/
def specVersionGate (meta : Meta) (cluster : Cluster) (versions : Versions) :
    Except FlowError Bool :=
  firstFailure
    [(meta.pangeo_notebook_version == versions.pangeo_notebook_version,
      .UnsupportedPangeoVersion),
     (meta.pangeo_notebook_version == cluster.pangeo_notebook_version,
      .UnsupportedPangeoVersion),
     (meta.pangeo_forge_version == versions.pangeo_forge_version,
      .UnsupportedPangeoForgeRecipeVersion),
     (meta.pangeo_forge_version == cluster.pangeo_forge_version,
      .UnsupportedPangeoForgeRecipeVersion),
     (versions.prefect_version == cluster.prefect_version,
      .UnsupportedPrefectVersion)]

/-- Whether an assembled flow carries the uniform retry policy (3 retries, a
3-minute fixed delay on every task) and the recipe id as its display name; an
exception outcome carries no flow and passes vacuously. -/
def flowPolicyHolds (res : Except FlowError Flow) (recipe_id : String) : Bool :=
  match res with
  | .error _ => true
  | .ok flow =>
    flow.tasks.all
      (fun t => t.max_retries == 3 && t.retry_delay == some RETRY_DELTA) &&
      flow.flow_name == recipe_id

/- Concrete fixtures used by witnesses and counterexamples. -/

/-- Fixture: a credential-option pair. -/
def sampleStorageOptions : StorageOptions := { key := "K", secret := "S" }

/-- Fixture: a secrets table resolving the fixture option names. -/
def sampleSecrets : Secrets :=
  [("K", "key-value"), ("S", "secret-value"), ("ACTIONS_BOT_TOKEN", "token")]

/-- Fixture: an object-store target descriptor with credential options. -/
def s3Target : BakeryTarget :=
  { priv := { protocol := S3_PROTOCOL,
              storage_options := some sampleStorageOptions } }

/-- Fixture: an object-store target descriptor with missing credential
options. -/
def s3TargetNoOptions : BakeryTarget :=
  { priv := { protocol := S3_PROTOCOL, storage_options := none } }

/-- Fixture: a target descriptor with an unrecognized protocol. -/
def unknownProtocolTarget : BakeryTarget :=
  { priv := { protocol := "gs", storage_options := some sampleStorageOptions } }

/-- Fixture: provider-specific cluster options. -/
def sampleClusterOptions : ClusterOptions :=
  { vpc := "vpc-1", cluster_arn := "arn-cluster", task_role_arn := "arn-task",
    execution_role_arn := "arn-exec", security_groups := ["sg-1"] }

/-- Fixture: a Fargate cluster. -/
def fargateCluster : Cluster :=
  { type := FARGATE_CLUSTER, worker_image := "image:tag",
    cluster_options := sampleClusterOptions, flow_storage := "bucket",
    flow_storage_protocol := S3_PROTOCOL,
    flow_storage_options := sampleStorageOptions, max_workers := 17,
    pangeo_notebook_version := "2021.05.04", pangeo_forge_version := "0.3.4",
    prefect_version := "0.14.7" }

/-- Fixture: an AKS cluster. -/
def aksCluster : Cluster :=
  { fargateCluster with
    type := AKS_CLUSTER, flow_storage_protocol := ABFS_PROTOCOL }

/-- Fixture: a cluster with an unrecognized type. -/
def unknownCluster : Cluster := { fargateCluster with type := "gke" }

/-- Fixture: a recipe-bakery section without a resource hint. -/
def recipeBakeryNoHint : RecipeBakery :=
  { id := "bakery-1", target := "tname", resources := none }

/-- Fixture: a recipe-bakery section with a resource hint of 100 cpu / 200
memory. -/
def recipeBakeryHint : RecipeBakery :=
  { id := "bakery-1", target := "tname", resources := some ⟨100, 200⟩ }

/-- Fixture: a bakery with an S3 target and a Fargate cluster. -/
def fargateBakery : Bakery :=
  { targets := [("tname", s3Target)], cluster := fargateCluster }

/-- Fixture: a bakery whose target has no credential options. -/
def missingOptionsBakery : Bakery :=
  { targets := [("tname", s3TargetNoOptions)], cluster := fargateCluster }

/-- Fixture: a bakery whose target protocol is unrecognized. -/
def unknownProtocolBakery : Bakery :=
  { targets := [("tname", unknownProtocolTarget)], cluster := fargateCluster }

/-- Fixture: a bakery whose cluster type is unrecognized. -/
def unknownClusterBakery : Bakery :=
  { targets := [("tname", s3Target)], cluster := unknownCluster }

/-- Fixture: a task run that succeeds. -/
def sampleRunOk : TRun := fun _ s => .ok ((), s)

/-- Fixture: a task run that raises. -/
def sampleRunErr : TRun := fun _ _ => .error "boom"

/-- Fixture: an initial logging state. -/
def sampleLogState : LogState := { basic_config := false, levels := [] }

/-- Fixture: a two-task xarray/zarr recipe with unset storage slots. -/
def sampleRecipe : Recipe :=
  { kind := .xarray_zarr, target := none, input_cache := none,
    metadata_cache := none,
    base_tasks := [{ task_name := "cache_input", run := sampleRunOk },
                   { task_name := "store_chunk", run := sampleRunOk }],
    pruned_tasks := [{ task_name := "store_chunk", run := sampleRunOk }] }

/-- Fixture: a meta.yaml with one plain recipe entry. -/
def sampleMeta : Meta :=
  { bakery := recipeBakeryNoHint, pangeo_notebook_version := "2021.05.04",
    pangeo_forge_version := "0.3.4",
    recipes := [{ id := "noaa-oisst", object := "recipe:recipe",
                  dict_object := none }] }

/-- Fixture: runtime versions agreeing with the fixture cluster and meta. -/
def sampleVersions : Versions :=
  { pangeo_notebook_version := "2021.05.04", pangeo_forge_version := "0.3.4",
    prefect_version := "0.14.7" }

/-- Fixture: runtime versions with a mismatching notebook version. -/
def mismatchedVersions : Versions :=
  { sampleVersions with pangeo_notebook_version := "2020.01.01" }

/-- Fixture: a resolved Targets value. -/
def sampleTargets : Targets :=
  { target := ⟨FileSystem.s3 false "none" false "key-value" "secret-value",
               "s3://tname/org/repo/noaa-oisst.zarr"⟩,
    cache := ⟨FileSystem.s3 false "none" false "key-value" "secret-value",
              "s3://tname/org/repo/noaa-oisst/cache"⟩,
    metadata := ⟨FileSystem.s3 false "none" false "key-value" "secret-value",
                 "s3://tname/org/repo/noaa-oisst/cache/metadata"⟩ }

/-- C3: for every valid object-store target (protocol, target name,
repository namespace, recipe id, extension), `configure_targets` derives
exactly output = `s3://{target_name}/{namespace}/{recipe_id}.{extension}`,
input-cache = `s3://{target_name}/{namespace}/{recipe_id}/cache` and
metadata-cache = `s3://{target_name}/{namespace}/{recipe_id}/cache/metadata`,
all on one filesystem handle.  The derivation is a pure function of its
arguments, so determinism — identical inputs yield identical paths — holds
definitionally. -/
theorem configure_targets_s3_paths
    (bakery : Bakery) (rb : RecipeBakery) (recipe_name : String)
    (secrets : Secrets) (extension repository : String)
    (target : BakeryTarget) (so : StorageOptions) (key secret : String)
    (hlook : bakery.targets.lookup rb.target = some target)
    (hproto : target.priv.protocol = S3_PROTOCOL)
    (hopts : target.priv.storage_options = some so)
    (hkey : secrets.lookup so.key = some key)
    (hsecret : secrets.lookup so.secret = some secret) :
    configure_targets bakery rb recipe_name secrets extension repository =
      .ok (some
        { target := ⟨FileSystem.s3 false "none" false key secret,
            "s3://" ++ rb.target ++ "/" ++ repository ++ "/" ++ recipe_name ++
              "." ++ extension⟩,
          cache := ⟨FileSystem.s3 false "none" false key secret,
            "s3://" ++ rb.target ++ "/" ++ repository ++ "/" ++ recipe_name ++
              "/cache"⟩,
          metadata := ⟨FileSystem.s3 false "none" false key secret,
            "s3://" ++ rb.target ++ "/" ++ repository ++ "/" ++ recipe_name ++
              "/cache/metadata"⟩ }) := by
  simp [configure_targets, hlook, hproto, hopts, hkey, hsecret]

/-- C3 witness: the fixture object-store bakery yields the three documented
paths for recipe `noaa-oisst` of repository `org/repo`. -/
theorem configure_targets_s3_paths_witness :
    configure_targets fargateBakery recipeBakeryNoHint "noaa-oisst"
        sampleSecrets "zarr" "org/repo" =
      .ok (some
        { target := ⟨FileSystem.s3 false "none" false "key-value" "secret-value",
            "s3://tname/org/repo/noaa-oisst.zarr"⟩,
          cache := ⟨FileSystem.s3 false "none" false "key-value" "secret-value",
            "s3://tname/org/repo/noaa-oisst/cache"⟩,
          metadata := ⟨FileSystem.s3 false "none" false "key-value" "secret-value",
            "s3://tname/org/repo/noaa-oisst/cache/metadata"⟩ }) := by
  exact configure_targets_s3_paths fargateBakery recipeBakeryNoHint
    "noaa-oisst" sampleSecrets "zarr" "org/repo" s3Target sampleStorageOptions
    "key-value" "secret-value" rfl rfl rfl rfl rfl

/-- C1 counterexample: an object-store target whose credential options are
missing does not raise `UnsupportedTarget`; `configure_targets` silently
returns `None` (the `if` body is skipped and the function falls through). -/
theorem configure_targets_missing_options_counterexample :
    configure_targets missingOptionsBakery recipeBakeryNoHint "noaa-oisst"
        sampleSecrets "zarr" "org/repo" = .ok none ∧
    (Except.ok none : Except FlowError (Option Targets)) ≠
      .error .UnsupportedTarget :=
  ⟨rfl, fun h => Except.noConfusion h⟩

/-- C1 amended: an unrecognized protocol raises `UnsupportedTarget`; a
recognized protocol (object-store or connection-string) with missing
credential options returns `None` — no Targets value, but also no
exception. -/
theorem configure_targets_dispatch
    (bakery : Bakery) (rb : RecipeBakery) (recipe_name : String)
    (secrets : Secrets) (extension repository : String)
    (target : BakeryTarget)
    (hlook : bakery.targets.lookup rb.target = some target) :
    (target.priv.protocol ≠ S3_PROTOCOL → target.priv.protocol ≠ ABFS_PROTOCOL →
      configure_targets bakery rb recipe_name secrets extension repository =
        .error .UnsupportedTarget) ∧
    (target.priv.storage_options = none →
      (target.priv.protocol = S3_PROTOCOL ∨ target.priv.protocol = ABFS_PROTOCOL) →
      configure_targets bakery rb recipe_name secrets extension repository =
        .ok none) := by
  constructor
  · intro h1 h2
    simp [configure_targets, hlook, h1, h2]
  · intro hopts hrec
    rcases hrec with h | h
    · simp [configure_targets, hlook, h, hopts]
    · simp [configure_targets, hlook, h, hopts, S3_PROTOCOL, ABFS_PROTOCOL]

/-- C1 witness: the fixture bakery with protocol `gs` raises
`UnsupportedTarget`; the fixture object-store bakery without credential
options returns `None`. -/
theorem configure_targets_dispatch_witness :
    configure_targets unknownProtocolBakery recipeBakeryNoHint "noaa-oisst"
        sampleSecrets "zarr" "org/repo" = .error .UnsupportedTarget ∧
    configure_targets missingOptionsBakery recipeBakeryHint "other"
        sampleSecrets "zarr" "org/x" = .ok none := by
  constructor
  · exact (configure_targets_dispatch unknownProtocolBakery recipeBakeryNoHint
      "noaa-oisst" sampleSecrets "zarr" "org/repo" unknownProtocolTarget
      rfl).1 (by decide) (by decide)
  · exact (configure_targets_dispatch missingOptionsBakery recipeBakeryHint
      "other" sampleSecrets "zarr" "org/x" s3TargetNoOptions rfl).2 rfl
      (Or.inl rfl)

/-- C5: for a Fargate cluster, `configure_dask_executor` yields worker
cpu/memory resolved from the per-recipe hint (defaults 1024 / 4096),
scheduler cpu 2048 / memory 16384, and an adaptive envelope with minimum 5
and maximum the cluster's max-worker bound. -/
theorem fargate_executor_sizing
    (cluster : Cluster) (rb : RecipeBakery) (recipe_name : String)
    (secrets : Secrets) (h : cluster.type = FARGATE_CLUSTER) :
    (configure_dask_executor cluster rb recipe_name secrets).map
        (fun d => (d.cluster_kwargs.workerCpuUnits,
                   d.cluster_kwargs.workerMemUnits,
                   d.cluster_kwargs.schedulerCpuUnits,
                   d.cluster_kwargs.schedulerMemUnits,
                   d.adapt_minimum, d.adapt_maximum)) =
      .ok (some (fargateWorkerCpu rb), some (fargateWorkerMem rb),
           some 2048, some 16384, 5, cluster.max_workers) := by
  cases hr : rb.resources <;>
    simp only [configure_dask_executor, h, hr, fargateWorkerCpu,
      fargateWorkerMem, if_true, eq_self_iff_true, if_pos] <;>
    rfl

/-- C5 witness: without a hint the fixture Fargate cluster resolves to
1024/4096 workers, 2048/16384 scheduler, envelope [5, 17]; with the 100/200
hint the worker values follow the hint. -/
theorem fargate_executor_sizing_witness :
    (configure_dask_executor fargateCluster recipeBakeryNoHint "r"
        sampleSecrets).map
        (fun d => (d.cluster_kwargs.workerCpuUnits,
                   d.cluster_kwargs.workerMemUnits,
                   d.cluster_kwargs.schedulerCpuUnits,
                   d.cluster_kwargs.schedulerMemUnits,
                   d.adapt_minimum, d.adapt_maximum)) =
      .ok (some 1024, some 4096, some 2048, some 16384, 5, 17) ∧
    (configure_dask_executor fargateCluster recipeBakeryHint "r"
        sampleSecrets).map
        (fun d => (d.cluster_kwargs.workerCpuUnits,
                   d.cluster_kwargs.workerMemUnits,
                   d.cluster_kwargs.schedulerCpuUnits,
                   d.cluster_kwargs.schedulerMemUnits,
                   d.adapt_minimum, d.adapt_maximum)) =
      .ok (some 100, some 200, some 2048, some 16384, 5, 17) := by
  exact ⟨fargate_executor_sizing fargateCluster recipeBakeryNoHint "r"
      sampleSecrets rfl,
    fargate_executor_sizing fargateCluster recipeBakeryHint "r"
      sampleSecrets rfl⟩

/-- C4 counterexample: with a 100 cpu / 200 memory hint on an AKS cluster,
the worker pod template requests `100m`, but the scheduler pod template
requests the fixed `2048m` — not the resolved worker cpu, refuting the claim
that both templates use the resolved values. -/
theorem aks_scheduler_template_counterexample :
    (configure_dask_executor aksCluster recipeBakeryHint "recipe"
        sampleSecrets).map
        (fun d => d.cluster_kwargs.schedulerPod.map PodSpec.cpu_request) =
      .ok (some "2048m") ∧
    (configure_dask_executor aksCluster recipeBakeryHint "recipe"
        sampleSecrets).map
        (fun d => d.cluster_kwargs.workerPod.map PodSpec.cpu_request) =
      .ok (some "100m") ∧
    ("2048m" : String) ≠ "100m" :=
  ⟨rfl, rfl, by decide⟩

/-- C4 amended: for an AKS cluster, the worker pod template's resource
requests use the resolved worker cpu/memory (hint, else 250 / 512) and carry
the flow-storage connection secret as an environment variable, while the
scheduler pod template's requests are fixed at `2048m` cpu / `10000Mi`
memory. -/
theorem aks_executor_templates
    (cluster : Cluster) (rb : RecipeBakery) (recipe_name : String)
    (secrets : Secrets) (secret : String)
    (htype : cluster.type = AKS_CLUSTER)
    (hsecret : secrets.lookup cluster.flow_storage_options.secret = some secret) :
    (configure_dask_executor cluster rb recipe_name secrets).map
        (fun d =>
          (d.cluster_kwargs.workerPod.map
            (fun p => (p.cpu_request, p.memory_request, p.env)),
           d.cluster_kwargs.schedulerPod.map
            (fun p => (p.cpu_request, p.memory_request)))) =
      .ok (some (toString (aksWorkerCpu rb) ++ "m",
                 toString (aksWorkerMem rb) ++ "Mi",
                 [("AZURE_STORAGE_CONNECTION_STRING", secret)]),
           some ("2048m", "10000Mi")) := by
  cases hr : rb.resources <;>
    simp only [configure_dask_executor, htype, hsecret, hr, aksWorkerCpu,
      aksWorkerMem, AKS_CLUSTER, FARGATE_CLUSTER, make_pod_spec,
      clean_pod_template, PodSpec.withContainerArgs, String.reduceEq,
      if_false, if_true, Bool.false_eq_true, ite_false, ite_true,
      reduceIte] <;>
    rfl

/-- C4 witness: the fixture AKS cluster with the 100/200 hint yields a
`100m`/`200Mi` worker template carrying the connection secret and a
`2048m`/`10000Mi` scheduler template. -/
theorem aks_executor_templates_witness :
    (configure_dask_executor aksCluster recipeBakeryHint "recipe"
        sampleSecrets).map
        (fun d =>
          (d.cluster_kwargs.workerPod.map
            (fun p => (p.cpu_request, p.memory_request, p.env)),
           d.cluster_kwargs.schedulerPod.map
            (fun p => (p.cpu_request, p.memory_request)))) =
      .ok (some ("100m", "200Mi",
                 [("AZURE_STORAGE_CONNECTION_STRING", "secret-value")]),
           some ("2048m", "10000Mi")) := by
  exact aks_executor_templates aksCluster recipeBakeryHint "recipe"
    sampleSecrets "secret-value" rfl rfl

/-- C10: for an AKS cluster, `configure_run_config` builds a kubernetes run
config whose driver resource requests are fixed at `2048m` cpu and `10000Mi`
memory for every input — the right-hand side does not mention the per-recipe
resource hint, so the requests are independent of it. -/
theorem aks_run_config_fixed
    (cluster : Cluster) (rb : RecipeBakery) (recipe_name : String)
    (secrets : Secrets) (secret : String)
    (htype : cluster.type = AKS_CLUSTER)
    (hsecret : secrets.lookup cluster.flow_storage_options.secret = some secret) :
    configure_run_config cluster rb recipe_name secrets =
      .ok (.kubernetes
        { apiVersion := "batch/v1", kind := "Job",
          metadata_annotations :=
            [("cluster-autoscaler.kubernetes.io/safe-to-evict", "false")],
          containers := ["flow"] }
        cluster.worker_image [rb.id] "10000Mi" "2048m"
        [("AZURE_STORAGE_CONNECTION_STRING", secret)]) := by
  simp [configure_run_config, htype, hsecret, AKS_CLUSTER, FARGATE_CLUSTER]

/-- C10 witness: the fixture AKS cluster, even with a 100/200 resource hint,
gets the fixed `2048m` / `10000Mi` driver requests. -/
theorem aks_run_config_fixed_witness :
    configure_run_config aksCluster recipeBakeryHint "recipe" sampleSecrets =
      .ok (.kubernetes
        { apiVersion := "batch/v1", kind := "Job",
          metadata_annotations :=
            [("cluster-autoscaler.kubernetes.io/safe-to-evict", "false")],
          containers := ["flow"] }
        "image:tag" ["bakery-1"] "10000Mi" "2048m"
        [("AZURE_STORAGE_CONNECTION_STRING", "secret-value")]) := by
  exact aks_run_config_fixed aksCluster recipeBakeryHint "recipe"
    sampleSecrets "secret-value" rfl rfl

/-- C2: `check_versions` agrees with the spec's ordered version gate (five
comparisons in order, first failure raising its specific mismatch kind, a
pass token on success), and in `register_flow` a mismatch aborts before any
recipe is processed: the event trace is empty — no target resolution, no
executor construction, no registration — and the batch ends with that
mismatch exception. -/
theorem check_versions_gate (meta : Meta) (cluster : Cluster)
    (versions : Versions) :
    check_versions meta cluster versions = specVersionGate meta cluster versions ∧
    (∀ (e : FlowError) (bakeries : List (String × Bakery)) (bakery : Bakery)
        (secrets : Secrets) (prune : Bool) (repository project_name : String)
        (comment_id : Option String) (obj_loader : String → Recipe)
        (dict_loader : String → List (String × Recipe)),
      bakeries.lookup meta.bakery.id = some bakery →
      bakery.cluster = cluster →
      check_versions meta cluster versions = .error e →
      register_flow meta bakeries secrets versions prune repository
        project_name comment_id obj_loader dict_loader = ([], some e)) := by
  constructor
  · by_cases h1 : meta.pangeo_notebook_version = versions.pangeo_notebook_version <;>
    by_cases h2 : meta.pangeo_notebook_version = cluster.pangeo_notebook_version <;>
    by_cases h3 : meta.pangeo_forge_version = versions.pangeo_forge_version <;>
    by_cases h4 : meta.pangeo_forge_version = cluster.pangeo_forge_version <;>
    by_cases h5 : versions.prefect_version = cluster.prefect_version <;>
    simp [check_versions, specVersionGate, firstFailure, h1, h2, h3, h4, h5]
  · intro e bakeries bakery secrets prune repository project_name comment_id
      obj_loader dict_loader hlook hcl hcv
    simp [register_flow, hlook, hcl, hcv]

/-- C2 witness: with a mismatching runtime notebook version, the gate agrees
with the spec gate and the fixture batch registers nothing, ending with
`UnsupportedPangeoVersion`. -/
theorem check_versions_gate_witness :
    check_versions sampleMeta fargateCluster mismatchedVersions =
      specVersionGate sampleMeta fargateCluster mismatchedVersions ∧
    register_flow sampleMeta [("bakery-1", fargateBakery)] sampleSecrets
        mismatchedVersions false "org/repo" "proj" none (fun _ => sampleRecipe)
        (fun _ => []) = ([], some .UnsupportedPangeoVersion) := by
  refine ⟨(check_versions_gate sampleMeta fargateCluster mismatchedVersions).1, ?_⟩
  exact (check_versions_gate sampleMeta fargateCluster mismatchedVersions).2
    .UnsupportedPangeoVersion [("bakery-1", fargateBakery)] fargateBakery
    sampleSecrets false "org/repo" "proj" none (fun _ => sampleRecipe)
    (fun _ => []) rfl rfl rfl

/-- Every task of the decorated task list carries 3 retries and the 3-minute
delay. -/
theorem tasks_decorated_all (l : List Task) :
    (l.map (fun t =>
      { t with
        max_retries := 3,
        retry_delay := some RETRY_DELTA,
        run := set_log_level t.run })).all
      (fun t => t.max_retries == 3 && t.retry_delay == some RETRY_DELTA) =
      true := by
  induction l with
  | nil => rfl
  | cons hd tl ih => simp [ih]

/-- C6: whatever number of tasks the executable job form contains, every task
of a flow assembled by `recipe_to_flow` has `max_retries = 3` and a fixed
3-minute `retry_delay`, and the flow's display name is the recipe id (an
exception outcome produces no flow and passes vacuously). -/
theorem recipe_to_flow_retry_policy (bakery : Bakery) (meta : Meta)
    (recipe_id : String) (recipe : Recipe) (targets : Targets)
    (secrets : Secrets) (prune : Bool) :
    flowPolicyHolds
      (recipe_to_flow bakery meta recipe_id recipe targets secrets prune).fst
      recipe_id = true := by
  unfold recipe_to_flow
  cases configure_dask_executor bakery.cluster meta.bakery recipe_id secrets with
  | error e => rfl
  | ok dask_executor =>
    cases configure_flow_storage bakery.cluster secrets with
    | error e => rfl
    | ok flow_storage =>
      cases configure_run_config bakery.cluster meta.bakery recipe_id secrets with
      | error e => rfl
      | ok run_config =>
        simp [flowPolicyHolds, tasks_decorated_all]

/-- C8: the `set_log_level` wrapper forces the `pangeo_forge_recipes` logger
to DEBUG for the wrapped call and then behaves exactly as the wrapped
function: it returns exactly the value the function returns and propagates
exactly the exception the function raises. -/
theorem set_log_level_transparent {α β ε : Type}
    (func : α → LogState → Except ε (β × LogState)) (args : α) (s : LogState) :
    loggerLevel (logPrelude s) "pangeo_forge_recipes" = some LOG_DEBUG ∧
    (∀ (v : β) (s2 : LogState), func args (logPrelude s) = .ok (v, s2) →
      set_log_level func args s = .ok (v, s2)) ∧
    (∀ (e : ε), func args (logPrelude s) = .error e →
      set_log_level func args s = .error e) := by
  refine ⟨?_, fun v s2 h => h, fun e h => h⟩
  simp [loggerLevel, logPrelude, setLoggerLevel, basicConfig]

/-- C8 witness: a succeeding fixture task keeps its value and a raising
fixture task keeps its exception under the wrapper. -/
theorem set_log_level_transparent_witness :
    set_log_level sampleRunOk () sampleLogState =
      .ok ((), logPrelude sampleLogState) ∧
    set_log_level sampleRunErr () sampleLogState = .error "boom" := by
  constructor
  · exact (set_log_level_transparent sampleRunOk () sampleLogState).2.1 ()
      (logPrelude sampleLogState) rfl
  · exact (set_log_level_transparent sampleRunErr () sampleLogState).2.2
      "boom" rfl

/-- C9: `recipe_to_flow` assigns the recipe object's target, input-cache and
metadata-cache slots before invoking the executor, flow-storage and
run-config resolvers, so when any resolver raises, the caller's recipe object
has already been mutated with the resolved targets — assembly is not atomic
on error. -/
theorem recipe_to_flow_mutates_before_resolvers (bakery : Bakery) (meta : Meta)
    (recipe_id : String) (recipe : Recipe) (targets : Targets)
    (secrets : Secrets) (prune : Bool) (e : FlowError)
    (_h : (recipe_to_flow bakery meta recipe_id recipe targets secrets prune).fst
      = .error e) :
    (recipe_to_flow bakery meta recipe_id recipe targets secrets prune).snd =
      { recipe with
        target := some targets.target, input_cache := some targets.cache,
        metadata_cache := some targets.metadata } := by
  unfold recipe_to_flow
  cases configure_dask_executor bakery.cluster meta.bakery recipe_id secrets with
  | error e2 => rfl
  | ok dask_executor =>
    cases configure_flow_storage bakery.cluster secrets with
    | error e2 => rfl
    | ok flow_storage =>
      cases configure_run_config bakery.cluster meta.bakery recipe_id secrets with
      | error e2 => rfl
      | ok run_config => rfl

/-- C9 witness: with the unrecognized-cluster fixture, the executor resolver
raises, yet the returned recipe state already carries the resolved target,
input-cache and metadata-cache slots. -/
theorem recipe_to_flow_mutates_before_resolvers_witness :
    (recipe_to_flow unknownClusterBakery sampleMeta "noaa-oisst" sampleRecipe
        sampleTargets sampleSecrets false).snd =
      { sampleRecipe with
        target := some sampleTargets.target,
        input_cache := some sampleTargets.cache,
        metadata_cache := some sampleTargets.metadata } := by
  exact recipe_to_flow_mutates_before_resolvers unknownClusterBakery sampleMeta
    "noaa-oisst" sampleRecipe sampleTargets sampleSecrets false
    .UnsupportedClusterType rfl

/-- An unrecognized cluster type makes `configure_dask_executor` raise
`UnsupportedClusterType`. -/
theorem configure_dask_executor_unknown_type (cluster : Cluster)
    (rb : RecipeBakery) (recipe_name : String) (secrets : Secrets)
    (h1 : cluster.type ≠ FARGATE_CLUSTER) (h2 : cluster.type ≠ AKS_CLUSTER) :
    configure_dask_executor cluster rb recipe_name secrets =
      .error .UnsupportedClusterType := by
  unfold configure_dask_executor
  rw [if_neg h1, if_neg h2]

/-- An unrecognized cluster type makes `configure_run_config` raise
`UnsupportedClusterType`. -/
theorem configure_run_config_unknown_type (cluster : Cluster)
    (rb : RecipeBakery) (recipe_name : String) (secrets : Secrets)
    (h1 : cluster.type ≠ FARGATE_CLUSTER) (h2 : cluster.type ≠ AKS_CLUSTER) :
    configure_run_config cluster rb recipe_name secrets =
      .error .UnsupportedClusterType := by
  unfold configure_run_config
  rw [if_neg h1, if_neg h2]

/-- With an unrecognized cluster type, `recipe_to_flow` fails with
`UnsupportedClusterType`. -/
theorem recipe_to_flow_unknown_type (bakery : Bakery) (meta : Meta)
    (recipe_id : String) (recipe : Recipe) (targets : Targets)
    (secrets : Secrets) (prune : Bool)
    (h1 : bakery.cluster.type ≠ FARGATE_CLUSTER)
    (h2 : bakery.cluster.type ≠ AKS_CLUSTER) :
    (recipe_to_flow bakery meta recipe_id recipe targets secrets prune).fst =
      .error .UnsupportedClusterType := by
  unfold recipe_to_flow
  rw [configure_dask_executor_unknown_type bakery.cluster meta.bakery
    recipe_id secrets h1 h2]

/-- With an unrecognized cluster type, a single loop step of `register_flow`
emits no registration event. -/
theorem processOne_unknown_type_no_register (bakery : Bakery) (meta : Meta)
    (secrets : Secrets) (prune : Bool) (repository project_name : String)
    (comment_id : Option String) (key : String) (value : Recipe)
    (h1 : bakery.cluster.type ≠ FARGATE_CLUSTER)
    (h2 : bakery.cluster.type ≠ AKS_CLUSTER) :
    ((processOne bakery meta secrets prune repository project_name comment_id
      key value).fst.filter Event.isRegistered) = [] := by
  unfold processOne
  split
  · rfl
  · split
    · rfl
    · rfl
    · rename_i targets heq
      rw [recipe_to_flow_unknown_type bakery meta key value targets secrets
        prune h1 h2]
      rfl

/-- With an unrecognized cluster type, the inner registration loop emits no
registration event over any entry list. -/
theorem runEntries_unknown_type_no_register (bakery : Bakery) (meta : Meta)
    (secrets : Secrets) (prune : Bool) (repository project_name : String)
    (comment_id : Option String) (entries : List (String × Recipe))
    (h1 : bakery.cluster.type ≠ FARGATE_CLUSTER)
    (h2 : bakery.cluster.type ≠ AKS_CLUSTER) :
    ((runEntries bakery meta secrets prune repository project_name comment_id
      entries).fst.filter Event.isRegistered) = [] := by
  induction entries with
  | nil => rfl
  | cons entry rest ih =>
    have hp := processOne_unknown_type_no_register bakery meta secrets prune
      repository project_name comment_id entry.fst entry.snd h1 h2
    unfold runEntries
    cases hsnd : (processOne bakery meta secrets prune repository project_name
        comment_id entry.fst entry.snd).snd with
    | some e => simp only [hsnd]; exact hp
    | none => simp only [hsnd]; simp [List.filter_append, hp, ih]

/-- With an unrecognized cluster type, the outer registration loop emits no
registration event over any recipe-entry list. -/
theorem runRecipeMetas_unknown_type_no_register (bakery : Bakery) (meta : Meta)
    (secrets : Secrets) (prune : Bool) (repository project_name : String)
    (comment_id : Option String) (obj_loader : String → Recipe)
    (dict_loader : String → List (String × Recipe))
    (recipe_metas : List RecipeMeta)
    (h1 : bakery.cluster.type ≠ FARGATE_CLUSTER)
    (h2 : bakery.cluster.type ≠ AKS_CLUSTER) :
    ((runRecipeMetas bakery meta secrets prune repository project_name
      comment_id obj_loader dict_loader recipe_metas).fst.filter
        Event.isRegistered) = [] := by
  induction recipe_metas with
  | nil => rfl
  | cons rm rest ih =>
    have he := runEntries_unknown_type_no_register bakery meta secrets prune
      repository project_name comment_id
      (match rm.dict_object with
       | some dobj => dict_loader dobj
       | none => [(rm.id, obj_loader rm.object)]) h1 h2
    unfold runRecipeMetas
    cases hsnd : (runEntries bakery meta secrets prune repository project_name
        comment_id
        (match rm.dict_object with
         | some dobj => dict_loader dobj
         | none => [(rm.id, obj_loader rm.object)])).snd with
    | some e => simp only [hsnd]; exact he
    | none => simp only [hsnd]; simp [List.filter_append, he, ih]

/-- C7: for a cluster whose type is neither recognized variant,
`configure_dask_executor` and `configure_run_config` both raise
`UnsupportedClusterType`, and any `register_flow` batch over a bakery with
that cluster registers zero jobs (its event trace contains no registration
event). -/
theorem unknown_cluster_type_rejected (cluster : Cluster) (rb : RecipeBakery)
    (recipe_name : String) (secrets : Secrets)
    (h1 : cluster.type ≠ FARGATE_CLUSTER) (h2 : cluster.type ≠ AKS_CLUSTER) :
    configure_dask_executor cluster rb recipe_name secrets =
      .error .UnsupportedClusterType ∧
    configure_run_config cluster rb recipe_name secrets =
      .error .UnsupportedClusterType ∧
    (∀ (meta : Meta) (bakeries : List (String × Bakery)) (bakery : Bakery)
        (secrets2 : Secrets) (versions : Versions) (prune : Bool)
        (repository project_name : String) (comment_id : Option String)
        (obj_loader : String → Recipe)
        (dict_loader : String → List (String × Recipe)),
      bakeries.lookup meta.bakery.id = some bakery →
      bakery.cluster = cluster →
      ((register_flow meta bakeries secrets2 versions prune repository
        project_name comment_id obj_loader dict_loader).fst.filter
          Event.isRegistered) = []) := by
  refine ⟨configure_dask_executor_unknown_type cluster rb recipe_name secrets
    h1 h2, configure_run_config_unknown_type cluster rb recipe_name secrets
    h1 h2, ?_⟩
  intro meta bakeries bakery secrets2 versions prune repository project_name
    comment_id obj_loader dict_loader hlook hcl
  unfold register_flow
  split
  · rfl
  · rename_i bakery2 heq
    rw [hlook] at heq
    injection heq with heq2
    subst heq2
    split
    · rfl
    · exact runRecipeMetas_unknown_type_no_register bakery meta secrets2 prune
        repository project_name comment_id obj_loader dict_loader meta.recipes
        (hcl ▸ h1) (hcl ▸ h2)

/-- C7 witness: the fixture `gke` cluster makes both builders raise
`UnsupportedClusterType`, and the fixture batch over that bakery registers
zero jobs. -/
theorem unknown_cluster_type_rejected_witness :
    configure_dask_executor unknownCluster recipeBakeryNoHint "r"
      sampleSecrets = .error .UnsupportedClusterType ∧
    configure_run_config unknownCluster recipeBakeryNoHint "r" sampleSecrets =
      .error .UnsupportedClusterType ∧
    ((register_flow sampleMeta [("bakery-1", unknownClusterBakery)]
      sampleSecrets sampleVersions false "org/repo" "proj" none
      (fun _ => sampleRecipe) (fun _ => [])).fst.filter Event.isRegistered) =
      [] := by
  obtain ⟨a, b, c⟩ := unknown_cluster_type_rejected unknownCluster
    recipeBakeryNoHint "r" sampleSecrets (by decide) (by decide)
  exact ⟨a, b, c sampleMeta [("bakery-1", unknownClusterBakery)]
    unknownClusterBakery sampleSecrets sampleVersions false "org/repo" "proj"
    none (fun _ => sampleRecipe) (fun _ => []) rfl rfl⟩

end PangeoForge
